import Mathlib

/-!
Verification model of the line2DPY webhook relay.

The development embeds the webhook authentication and event-dispatch core of
main.py as executable Lean definitions: bytes are lists of naturals below 256,
machine words are naturals reduced modulo 2 ^ 32, and the two external SDK
calls that the routes depend on (content fetch, storage upload, JSON envelope
decoding) are passed in as explicit oracle values, so every route of the code
becomes a total function whose behaviour can be evaluated on concrete inputs.
-/

set_option maxRecDepth 20000

/-! ## 32-bit words and SHA-256

Embeds the hashlib.sha256 primitive used by the signature check in main.py
(standard FIPS 180-4 SHA-256 over byte lists, words as naturals mod 2 ^ 32). -/

def w32 (x : Nat) : Nat := x % 4294967296

def rotr32 (n x : Nat) : Nat := w32 ((x >>> n) ||| (x <<< (32 - n)))

def shaK : List Nat :=
  [1116352408, 1899447441, 3049323471, 3921009573, 961987163, 1508970993,
   2453635748, 2870763221, 3624381080, 310598401, 607225278, 1426881987,
   1925078388, 2162078206, 2614888103, 3248222580, 3835390401, 4022224774,
   264347078, 604807628, 770255983, 1249150122, 1555081692, 1996064986,
   2554220882, 2821834349, 2952996808, 3210313671, 3336571891, 3584528711,
   113926993, 338241895, 666307205, 773529912, 1294757372, 1396182291,
   1695183700, 1986661051, 2177026350, 2456956037, 2730485921, 2820302411,
   3259730800, 3345764771, 3516065817, 3600352804, 4094571909, 275423344,
   430227734, 506948616, 659060556, 883997877, 958139571, 1322822218,
   1537002063, 1747873779, 1955562222, 2024104815, 2227730452, 2361852424,
   2428436474, 2756734187, 3204031479, 3329325298]

structure Hash8 where
  a0 : Nat
  a1 : Nat
  a2 : Nat
  a3 : Nat
  a4 : Nat
  a5 : Nat
  a6 : Nat
  a7 : Nat
deriving DecidableEq, Repr

def shaH0 : Hash8 :=
  ⟨1779033703, 3144134277, 1013904242, 2773480762,
   1359893119, 2600822924, 528734635, 1541459225⟩

def sha_compress (st : Hash8) (wk : Nat × Nat) : Hash8 :=
  let s1 := Nat.xor (rotr32 6 st.a4) (Nat.xor (rotr32 11 st.a4) (rotr32 25 st.a4))
  let ch := Nat.xor (Nat.land st.a4 st.a5) (Nat.land (Nat.xor st.a4 4294967295) st.a6)
  let t1 := w32 (st.a7 + s1 + ch + wk.1 + wk.2)
  let s0 := Nat.xor (rotr32 2 st.a0) (Nat.xor (rotr32 13 st.a0) (rotr32 22 st.a0))
  let mj := Nat.xor (Nat.land st.a0 st.a1) (Nat.xor (Nat.land st.a0 st.a2) (Nat.land st.a1 st.a2))
  let t2 := w32 (s0 + mj)
  ⟨w32 (t1 + t2), st.a0, st.a1, st.a2, w32 (st.a3 + t1), st.a4, st.a5, st.a6⟩

def sha_sched : Nat → List Nat → List Nat
  | 0, ws => ws
  | n + 1, ws =>
    let w15 := ws.getD 14 0
    let w2 := ws.getD 1 0
    let s0 := Nat.xor (rotr32 7 w15) (Nat.xor (rotr32 18 w15) (w15 >>> 3))
    let s1 := Nat.xor (rotr32 17 w2) (Nat.xor (rotr32 19 w2) (w2 >>> 10))
    sha_sched n (w32 (ws.getD 15 0 + s0 + ws.getD 6 0 + s1) :: ws)

def bytesToWords : List Nat → List Nat
  | a :: b :: c :: d :: rest => (a * 16777216 + b * 65536 + c * 256 + d) :: bytesToWords rest
  | _ => []

def sha_block (st : Hash8) (block : List Nat) : Hash8 :=
  let ws := (sha_sched 48 (bytesToWords block).reverse).reverse
  let f := (ws.zip shaK).foldl sha_compress st
  ⟨w32 (st.a0 + f.a0), w32 (st.a1 + f.a1), w32 (st.a2 + f.a2), w32 (st.a3 + f.a3),
   w32 (st.a4 + f.a4), w32 (st.a5 + f.a5), w32 (st.a6 + f.a6), w32 (st.a7 + f.a7)⟩

def len8bytes (n : Nat) : List Nat :=
  [(n >>> 56) % 256, (n >>> 48) % 256, (n >>> 40) % 256, (n >>> 32) % 256,
   (n >>> 24) % 256, (n >>> 16) % 256, (n >>> 8) % 256, n % 256]

def shaPad (len : Nat) : List Nat :=
  let k := (120 - ((len + 1) % 64)) % 64
  0x80 :: (List.replicate k 0 ++ len8bytes (8 * len))

def chunks64 : Nat → List Nat → List (List Nat)
  | 0, _ => []
  | _, [] => []
  | fuel + 1, xs => xs.take 64 :: chunks64 fuel (xs.drop 64)

def wordBytes (w : Nat) : List Nat :=
  [(w >>> 24) % 256, (w >>> 16) % 256, (w >>> 8) % 256, w % 256]

def sha256 (msg : List Nat) : List Nat :=
  let padded := msg ++ shaPad msg.length
  let hf := (chunks64 padded.length padded).foldl sha_block shaH0
  wordBytes hf.a0 ++ wordBytes hf.a1 ++ wordBytes hf.a2 ++ wordBytes hf.a3 ++
  wordBytes hf.a4 ++ wordBytes hf.a5 ++ wordBytes hf.a6 ++ wordBytes hf.a7

/-! ## HMAC, base64 and UTF-8 byte encodings

Embeds the hmac.new(secret, body, sha256) and base64.b64encode calls of
the function at main.py lines 87-89, and the utf-8 encoding applied to the
secret there. -/

def hmacSha256 (key msg : List Nat) : List Nat :=
  let k0 := if 64 < key.length then sha256 key else key
  let k := k0 ++ List.replicate (64 - k0.length) 0
  let ipadK := k.map (fun b => Nat.xor b 54)
  let opadK := k.map (fun b => Nat.xor b 92)
  sha256 (opadK ++ sha256 (ipadK ++ msg))

def b64Alphabet : List Char :=
  "ABCDEFGHIJKLMNOPQRSTUVWXYZabcdefghijklmnopqrstuvwxyz0123456789+/".data

def b64char (n : Nat) : Char := b64Alphabet.getD (n % 64) 'A'

def base64Chars : List Nat → List Char
  | a :: b :: c :: rest =>
    b64char (a >>> 2) :: b64char (((a % 4) <<< 4) ||| (b >>> 4)) ::
    b64char (((b % 16) <<< 2) ||| (c >>> 6)) :: b64char (c % 64) :: base64Chars rest
  | [a, b] =>
    [b64char (a >>> 2), b64char (((a % 4) <<< 4) ||| (b >>> 4)), b64char ((b % 16) <<< 2), '=']
  | [a] => [b64char (a >>> 2), b64char ((a % 4) <<< 4), '=', '=']
  | [] => []

def utf8EncodeChar (c : Char) : List Nat :=
  let n := c.toNat
  if n < 0x80 then [n]
  else if n < 0x800 then [0xC0 ||| (n >>> 6), 0x80 ||| (Nat.land n 0x3F)]
  else if n < 0x10000 then
    [0xE0 ||| (n >>> 12), 0x80 ||| (Nat.land (n >>> 6) 0x3F), 0x80 ||| (Nat.land n 0x3F)]
  else
    [0xF0 ||| (n >>> 18), 0x80 ||| (Nat.land (n >>> 12) 0x3F),
     0x80 ||| (Nat.land (n >>> 6) 0x3F), 0x80 ||| (Nat.land n 0x3F)]

def utf8Encode (s : String) : List Nat := (s.data.map utf8EncodeChar).flatten

/-! ## Python string helpers

The strip call on the signature header (main.py line 186) and the falsy-or
idiom used throughout main.py: in Python an empty string and None are falsy,
so the expression a or b yields b exactly when a is absent or empty. -/

/-- Modelled from the CPython runtime (external to this repository): the
characters str.strip removes with no argument, i.e. the full set for which
the CPython Unicode database answers true to Py_UNICODE_ISSPACE, enumerated
from the interpreter: the ASCII whitespace characters, the information
separators U+001C through U+001F, next line U+0085, no-break space U+00A0,
ogham space mark U+1680, the typographic spaces U+2000 through U+200A, the
line and paragraph separators U+2028 and U+2029, narrow no-break space
U+202F, medium mathematical space U+205F, and ideographic space U+3000. -/
def pyWhitespace : List Char :=
  ['\t', '\n', '\x0b', '\x0c', '\r', '\x1c', '\x1d', '\x1e', '\x1f', ' ',
   '\x85', '\xa0', '\u1680', '\u2000', '\u2001', '\u2002', '\u2003', '\u2004',
   '\u2005', '\u2006', '\u2007', '\u2008', '\u2009', '\u200a', '\u2028', '\u2029',
   '\u202f', '\u205f', '\u3000']

def isPySpace (c : Char) : Bool := pyWhitespace.contains c

def stripList (l : List Char) : List Char :=
  ((l.dropWhile isPySpace).reverse.dropWhile isPySpace).reverse

def pyStrip (s : String) : String := String.mk (stripList s.data)

def pyOrStr (a : Option String) (b : String) : String :=
  match a with
  | some s => if s = "" then b else s
  | none => b

def truthy : Option String → Bool
  | some s => s != ""
  | none => false

def pyOrO (a b : Option String) : Option String := if truthy a then a else b

def pyContainsChar (s : String) (c : Char) : Bool := s.data.contains c

/-! ## Signature computation and verification

Embeds _compute_signature (main.py lines 87-89) and the verification test at
main.py line 186: hmac.compare_digest applied to the stripped header value and
the expected signature. -/

def _compute_signature (secret : String) (body : List Nat) : String :=
  String.mk (base64Chars (hmacSha256 (utf8Encode secret) body))

def isAsciiChar (c : Char) : Bool := decide (c.toNat < 128)

def isAsciiStr (s : String) : Bool := s.data.all isAsciiChar

/-- Outcome of an hmac.compare_digest call on two str arguments: a Boolean
answer, or the TypeError the call raises. -/
inductive CompareOutcome where
  | ok (b : Bool)
  | typeError
deriving DecidableEq, Repr

/-- Modelled from the CPython runtime (external to this repository):
hmac.compare_digest on two str arguments raises TypeError unless both are
ASCII-only, and on ASCII strings answers their equality; its constant-time
execution is a cost property with no counterpart in this functional model. -/
def compare_digest_str (a b : String) : CompareOutcome :=
  if isAsciiStr a = false ∨ isAsciiStr b = false then .typeError
  else .ok (a == b)

/-- Embeds the verification test at main.py line 186: compare_digest applied
to the stripped header value and the expected signature; the TypeError raised
on a non-ASCII stripped header value escapes the handler uncaught. -/
def verify_signature (secret : String) (body : List Nat) (claimed : String) : CompareOutcome :=
  compare_digest_str (pyStrip claimed) (_compute_signature secret body)

/-! ## Data model

Events and messages as the routing code in main.py observes them through the
LINE SDK: every message carries an id, only FileMessage has a file_name
attribute (getattr with a None default yields none elsewhere), and an event
source may expose user_id, group_id or room_id. -/

structure Source where
  user_id : Option String
  group_id : Option String
  room_id : Option String
deriving DecidableEq, Repr

inductive Message where
  | text (id : String) (body : String)
  | file (id : String) (file_name : Option String)
  | image (id : String)
  | video (id : String)
  | audio (id : String)
  | sticker (id : String)
deriving DecidableEq, Repr

def message_id : Message → String
  | .text i _ => i
  | .file i _ => i
  | .image i => i
  | .video i => i
  | .audio i => i
  | .sticker i => i

def message_file_name : Message → Option String
  | .file _ fn => fn
  | _ => none

def is_media_message : Message → Bool
  | .file _ _ => true
  | .image _ => true
  | .video _ => true
  | .audio _ => true
  | _ => false

inductive LineEvent where
  | message (reply_token : String) (source : Source) (msg : Message)
  | other
deriving DecidableEq, Repr

/-! ## Environment and lazy clients

The three environment strings read at main.py lines 40-42 and the lazily
initialised global client handles of _ensure_clients (main.py lines 58-73).
The success of get_drive is an external outcome, passed in as the boolean
driveInitOk; a failure is swallowed, leaving the drive handle unset. -/

structure Env where
  channel_secret : String
  channel_access_token : String
  google_drive_folder_id : String
deriving DecidableEq, Repr

structure Clients where
  line_bot_api : Bool
  parser : Bool
  drive : Bool
deriving DecidableEq, Repr

def ensure_clients (env : Env) (c : Clients) (driveInitOk : Bool) : Clients :=
  ⟨c.line_bot_api || env.channel_access_token != "",
   c.parser || env.channel_secret != "",
   c.drive || driveInitOk⟩

/-- Embeds _push_target (main.py lines 75-81): the first truthy attribute
among user_id, group_id, room_id, in that order, else None. -/
def _push_target (src : Source) : Option String :=
  if truthy src.user_id then src.user_id
  else if truthy src.group_id then src.group_id
  else if truthy src.room_id then src.room_id
  else none

/-! ## Filename derivation -/

/-- Modelled from the Python standard library (external to this repository):
a partial table of mimetypes.guess_extension covering the content types
exercised here. The historical CPython table lists ".jpe" first among the
extensions registered for image/jpeg, which is exactly the guess that the
".jpe" correction in _safe_ext targets; unknown types yield none. -/
def mimetypes_guess_extension (ct : String) : Option String :=
  if ct = "image/jpeg" then some ".jpe"
  else if ct = "application/pdf" then some ".pdf"
  else if ct = "image/png" then some ".png"
  else if ct = "text/plain" then some ".txt"
  else none

/-- Embeds _safe_ext (main.py lines 83-85). -/
def _safe_ext (content_type : Option String) : String :=
  let ext := pyOrStr (mimetypes_guess_extension (pyOrStr content_type "")) ""
  if ext = ".jpe" then ".jpg" else ext

/-- Embeds the filename derivation of process_upload (main.py lines 108-109):
base is the declared file name if truthy, else line_ followed by the message
id; the guessed extension is appended only when base contains no dot. -/
def derive_filename (file_name : Option String) (mid : String) (content_type : String) : String :=
  let base := pyOrStr file_name ("line_" ++ mid)
  if pyContainsChar base '.' then base else base ++ _safe_ext (some content_type)

/-! ## Upload outcome and link selection -/

/-- Fields of the metadata dictionary returned by the upload collaborator, as
read by process_upload (main.py lines 126-129); dictionary get yields none for
an absent key. -/
structure UploadMeta where
  id : Option String
  webViewLink : Option String
  webContentLink : Option String
deriving DecidableEq, Repr

def synth_link : Option String → Option String
  | some i => if i != "" then some ("https://drive.google.com/file/d/" ++ i ++ "/view") else none
  | none => none

/-- Embeds the link selection of process_upload (main.py lines 127-129): the
Python or-chain over webViewLink, webContentLink and the synthesized view URL,
the last guarded by the truthiness of the file id. -/
def choose_link (meta : UploadMeta) : Option String :=
  pyOrO meta.webViewLink (pyOrO meta.webContentLink (synth_link meta.id))

/-- Spec-side formulation for the link preference: the first non-empty entry
of an ordered candidate list. -/
def firstTruthy : List (Option String) → Option String
  | [] => none
  | a :: t => if truthy a then a else firstTruthy t

/-! ## Deferred pipeline -/

inductive FetchResult where
  | failure
  | success (content_type : Option String)
deriving DecidableEq, Repr

inductive UploadResult where
  | failure
  | success (meta : UploadMeta)
deriving DecidableEq, Repr

/-- Arguments passed to the upload_stream collaborator call at main.py
lines 119-125 (the buffered stream itself is opaque and omitted). -/
structure UploadCall where
  folder_id : String
  filename : String
  content_type : String
deriving DecidableEq, Repr

/-- Observable effects of one process_upload run: the upload call if one was
issued, and the push_message target and link if one was attempted. -/
structure ProcessTrace where
  upload_call : Option UploadCall
  push : Option (String × String)
deriving DecidableEq, Repr

/-- Embeds process_upload (main.py lines 94-142). The content fetch and the
upload are external collaborator calls, passed in as oracle outcomes; any
exception they raise is caught by the enclosing try block, so a failure
outcome truncates the trace instead of propagating. The body never raises:
the model is a total function. -/
def process_upload (env : Env) (c : Clients) (driveInitOk : Bool) (msg : Message) (src : Source)
    (fetch : FetchResult) (upload : UploadResult) : ProcessTrace :=
  let cl := ensure_clients env c driveInitOk
  if cl.line_bot_api = false ∨ cl.drive = false then ⟨none, none⟩
  else
    match fetch with
    | .failure => ⟨none, none⟩
    | .success ct =>
      let content_type := pyOrStr ct "application/octet-stream"
      let filename := derive_filename (message_file_name msg) (message_id msg) content_type
      let call : UploadCall := ⟨env.google_drive_folder_id, filename, content_type⟩
      match upload with
      | .failure => ⟨some call, none⟩
      | .success meta =>
        let link := choose_link meta
        let target := _push_target src
        if truthy target && truthy link then ⟨some call, some (target.getD "", link.getD "")⟩
        else ⟨some call, none⟩

/-! ## Webhook route -/

inductive ParseOutcome where
  | invalidSignature
  | parseError
  | events (es : List LineEvent)
deriving DecidableEq, Repr

/-- Modelled from the line-bot SDK (an external collaborator, not part of
src/): the call parser.parse(body_bytes.decode("utf-8"), signature) at
main.py line 193 first decodes the raw bytes as UTF-8 (a failure there is an
exception reaching the generic handler), then WebhookParser.parse validates
the claimed signature with an exact constant-time comparison against
base64(HMAC-SHA256(secret, body)) and raises InvalidSignatureError on
mismatch, and only then decodes the JSON envelope into events. The UTF-8
decodability and the envelope decoding itself are oracle parameters; decoded
is none when the envelope is malformed. -/
def parse_step (secret : String) (body : List Nat) (claimed : String) (utf8Ok : Bool)
    (decoded : Option (List LineEvent)) : ParseOutcome :=
  if utf8Ok = false then .parseError
  else if claimed = _compute_signature secret body then
    match decoded with
    | some es => .events es
    | none => .parseError
  else .invalidSignature

def processing_reply_text : String := "รับไฟล์แล้ว กำลังอัปโหลดขึ้น Google Drive..."

def text_reply_text : String := "ส่งรูป/ไฟล์มาได้เลย เดี๋ยวอัปขึ้น Google Drive ให้ครับ ✅"

/-- Embeds the per-event routing of the callback loop (main.py lines 202-223):
media messages get the processing reply and a deferred task, text messages get
the canned text reply, and every other event or message type is ignored.
Reply delivery failures are caught and logged in the source, so a reply here
records the attempt. Yields (replies, enqueued tasks). -/
def route_event : LineEvent → List (String × String) × List LineEvent
  | .message tok src msg =>
    if is_media_message msg then ([(tok, processing_reply_text)], [.message tok src msg])
    else
      match msg with
      | .text _ _ => ([(tok, text_reply_text)], [])
      | _ => ([], [])
  | .other => ([], [])

def route_events : List LineEvent → List (String × String) × List LineEvent
  | [] => ([], [])
  | e :: t =>
    let r := route_event e
    let rest := route_events t
    (r.1 ++ rest.1, r.2 ++ rest.2)

/-- Result of one POST /callback request: an HTTPException with its status, a
normal response carrying the replies attempted and the tasks enqueued, or
serverError for an exception that escapes the handler uncaught and is
surfaced by the framework as HTTP 500. -/
inductive HttpResult where
  | httpError (status : Nat)
  | response (status : Nat) (replies : List (String × String)) (tasks : List LineEvent)
  | serverError
deriving DecidableEq, Repr

def replies_of : HttpResult → List (String × String)
  | .httpError _ => []
  | .response _ r _ => r
  | .serverError => []

def tasks_of : HttpResult → List LineEvent
  | .httpError _ => []
  | .response _ _ t => t
  | .serverError => []

/-- Embeds the POST /callback handler (main.py lines 169-226): the required
environment check, lazy client initialisation, the raw-body signature check
at line 186 (whose compare_digest TypeError on a non-ASCII stripped header
escapes uncaught), the parse step with its two distinct failure conversions,
the routing loop, and the final 200 acknowledgment. -/
def callback (env : Env) (c : Clients) (driveInitOk : Bool) (body : List Nat)
    (x_line_signature : String) (utf8Ok : Bool) (decoded : Option (List LineEvent)) : HttpResult :=
  if env.channel_secret = "" ∨ env.channel_access_token = "" ∨ env.google_drive_folder_id = "" then
    .httpError 500
  else
    if (ensure_clients env c driveInitOk).parser = false ∨
        (ensure_clients env c driveInitOk).line_bot_api = false then .httpError 500
    else
      match verify_signature env.channel_secret body x_line_signature with
      | CompareOutcome.typeError => .serverError
      | CompareOutcome.ok false => .httpError 400
      | CompareOutcome.ok true =>
        match parse_step env.channel_secret body x_line_signature utf8Ok decoded with
        | .invalidSignature => .httpError 400
        | .parseError => .response 200 [] []
        | .events es => .response 200 (route_events es).1 (route_events es).2

/-! ## Helper lemmas

The base64 encoding emits only alphabet characters and the padding character,
all of which are ASCII and none of which is whitespace, so stripping a
computed signature leaves it unchanged and compare_digest never raises on the
expected-signature side. -/

theorem b64char_pred (p : Char → Bool) (h : ∀ c ∈ b64Alphabet, p c = true) (n : Nat) :
    p (b64char n) = true := by
  have hlt : n % 64 < b64Alphabet.length := by
    have h64 : b64Alphabet.length = 64 := by decide
    rw [h64]
    exact Nat.mod_lt _ (by decide)
  rw [b64char, List.getD_eq_getElem b64Alphabet 'A' hlt]
  exact h _ (List.getElem_mem hlt)

theorem base64Chars_pred (p : Char → Bool) (h : ∀ c ∈ b64Alphabet, p c = true)
    (he : p '=' = true) : ∀ (bs : List Nat), ∀ c ∈ base64Chars bs, p c = true
  | a :: b :: d :: rest => by
    intro c hc
    simp only [base64Chars, List.mem_cons] at hc
    rcases hc with h1 | h1 | h1 | h1 | h1
    · rw [h1]; exact b64char_pred p h _
    · rw [h1]; exact b64char_pred p h _
    · rw [h1]; exact b64char_pred p h _
    · rw [h1]; exact b64char_pred p h _
    · exact base64Chars_pred p h he rest c h1
  | [a, b] => by
    intro c hc
    simp only [base64Chars, List.mem_cons, List.not_mem_nil, or_false] at hc
    rcases hc with h1 | h1 | h1 | h1
    · rw [h1]; exact b64char_pred p h _
    · rw [h1]; exact b64char_pred p h _
    · rw [h1]; exact b64char_pred p h _
    · rw [h1]; exact he
  | [a] => by
    intro c hc
    simp only [base64Chars, List.mem_cons, List.not_mem_nil, or_false] at hc
    rcases hc with h1 | h1 | h1 | h1
    · rw [h1]; exact b64char_pred p h _
    · rw [h1]; exact b64char_pred p h _
    · rw [h1]; exact he
    · rw [h1]; exact he
  | [] => by
    intro c hc
    simp [base64Chars] at hc

theorem base64Chars_no_space (bs : List Nat) : ∀ c ∈ base64Chars bs, isPySpace c = false := by
  intro c hc
  have h := base64Chars_pred (fun ch => !isPySpace ch) (by decide) (by decide) bs c hc
  simpa using h

theorem base64Chars_ascii (bs : List Nat) : ∀ c ∈ base64Chars bs, isAsciiChar c = true :=
  base64Chars_pred isAsciiChar (by decide) (by decide) bs

theorem compute_signature_ascii (secret : String) (body : List Nat) :
    isAsciiStr (_compute_signature secret body) = true := by
  show (base64Chars (hmacSha256 (utf8Encode secret) body)).all isAsciiChar = true
  rw [List.all_eq_true]
  exact base64Chars_ascii _

theorem dropWhile_eq_self_of_none (p : Char → Bool) :
    ∀ (l : List Char), (∀ c ∈ l, p c = false) → l.dropWhile p = l
  | [], _ => rfl
  | c :: t, h => by
    have hc : p c = false := h c (List.mem_cons_self c t)
    simp [List.dropWhile, hc]

theorem stripList_eq_self (l : List Char) (h : ∀ c ∈ l, isPySpace c = false) :
    stripList l = l := by
  unfold stripList
  rw [dropWhile_eq_self_of_none isPySpace l h]
  rw [dropWhile_eq_self_of_none isPySpace l.reverse (fun c hc => h c (List.mem_reverse.mp hc))]
  exact List.reverse_reverse l

theorem pyStrip_compute_signature (secret : String) (body : List Nat) :
    pyStrip (_compute_signature secret body) = _compute_signature secret body := by
  show String.mk (stripList (base64Chars (hmacSha256 (utf8Encode secret) body))) =
    _compute_signature secret body
  rw [stripList_eq_self _ (base64Chars_no_space _)]
  rfl

theorem verify_signature_ok_of_ascii (secret : String) (body : List Nat) (claimed : String)
    (ha : isAsciiStr (pyStrip claimed) = true) :
    verify_signature secret body claimed =
      CompareOutcome.ok (pyStrip claimed == _compute_signature secret body) := by
  unfold verify_signature compare_digest_str
  rw [if_neg (by simp [ha, compute_signature_ascii])]

theorem verify_signature_raises_of_nonascii (secret : String) (body : List Nat)
    (claimed : String) (ha : isAsciiStr (pyStrip claimed) = false) :
    verify_signature secret body claimed = CompareOutcome.typeError := by
  unfold verify_signature compare_digest_str
  rw [if_pos (Or.inl ha)]

theorem verify_signature_ok_iff (secret : String) (body : List Nat) (claimed : String) :
    verify_signature secret body claimed = CompareOutcome.ok true ↔
      pyStrip claimed = _compute_signature secret body := by
  constructor
  · intro h
    by_cases ha : isAsciiStr (pyStrip claimed) = true
    · rw [verify_signature_ok_of_ascii secret body claimed ha] at h
      exact beq_iff_eq.mp (CompareOutcome.ok.inj h)
    · rw [verify_signature_raises_of_nonascii secret body claimed
        (by revert ha; cases isAsciiStr (pyStrip claimed) <;> simp)] at h
      exact CompareOutcome.noConfusion h
  · intro h
    have ha : isAsciiStr (pyStrip claimed) = true := by
      rw [h]
      exact compute_signature_ascii secret body
    rw [verify_signature_ok_of_ascii secret body claimed ha, h]
    simp

/-- Claim C1 (amended): presenting base64(HMAC-SHA256(secret, body)) computed
over the exact raw body as the claimed signature makes verification succeed,
and verification answers true exactly when the claimed signature, stripped of
leading and trailing Python whitespace, equals base64(HMAC-SHA256(secret,
body)): the handler strips the header value before the comparison at main.py
line 186, and a claimed value whose stripped form is not ASCII makes
compare_digest raise TypeError rather than answer at all. -/
theorem C1_signature_verification (secret : String) (body : List Nat) (claimed : String) :
    verify_signature secret body (_compute_signature secret body) = CompareOutcome.ok true ∧
    (verify_signature secret body claimed = CompareOutcome.ok true ↔
      pyStrip claimed = _compute_signature secret body) := by
  constructor
  · exact (verify_signature_ok_iff secret body _).mpr (pyStrip_compute_signature secret body)
  · exact verify_signature_ok_iff secret body claimed

/-- Claim C1 counterexample: with secret "s" and body the single byte of "x",
appending a trailing ASCII space, or a trailing no-break space U+00A0 as a
latin-1-decoded header byte yields, to the correct signature still passes the
verification check of main.py line 186 even though the claimed value differs
from base64(HMAC-SHA256(secret, body)), because the handler strips the header
value before comparing; acceptance is therefore not exactly equality with the
encoded digest. -/
theorem C1_counterexample :
    verify_signature "s" (utf8Encode "x")
        (_compute_signature "s" (utf8Encode "x") ++ " ") = CompareOutcome.ok true ∧
    verify_signature "s" (utf8Encode "x")
        (_compute_signature "s" (utf8Encode "x") ++ "\xa0") = CompareOutcome.ok true ∧
    _compute_signature "s" (utf8Encode "x") ++ " " ≠ _compute_signature "s" (utf8Encode "x") ∧
    _compute_signature "s" (utf8Encode "x") ++ "\xa0" ≠ _compute_signature "s" (utf8Encode "x") := by
  refine ⟨by decide, by decide, by decide, by decide⟩

theorem ensure_clients_ready (env : Env) (c : Clients) (driveOk : Bool)
    (h1 : env.channel_secret ≠ "") (h2 : env.channel_access_token ≠ "") :
    (ensure_clients env c driveOk).parser = true ∧
      (ensure_clients env c driveOk).line_bot_api = true := by
  unfold ensure_clients
  constructor <;> simp [h1, h2]

/-- Claim C2 counterexample: with the required configuration present, a
well-formed body and the forged claimed signature "é" — reachable, since
Starlette decodes header bytes above 0x7f as latin-1 — the compare_digest
call at main.py line 186 raises TypeError, the exception escapes the handler
uncaught, and the request fails with HTTP 500, not the claimed 400. -/
theorem C2_counterexample :
    "é" ≠ _compute_signature "secret" (utf8Encode "x") ∧
    callback ⟨"secret", "token", "folder"⟩ ⟨false, false, false⟩ true (utf8Encode "x")
        "é" true (some []) = .serverError ∧
    callback ⟨"secret", "token", "folder"⟩ ⟨false, false, false⟩ true (utf8Encode "x")
        "é" true (some []) ≠ .httpError 400 := by
  refine ⟨by decide, by decide, by decide⟩

/-- Claim C2 (amended): with the required configuration present, for every
well-formed body and every claimed signature that is not the correct base64
HMAC-SHA256 of that body, POST /callback rejects the request with HTTP 400
when the stripped claimed value is all-ASCII — either the handler check at
main.py line 186 answers false, or it passes on a whitespace-padded correct
value and the SDK parse call re-validates the exact header, its
InvalidSignatureError becoming the same 400 at lines 194-195 — while a
claimed value whose stripped form contains non-ASCII characters makes
compare_digest raise TypeError uncaught, failing the request with HTTP 500;
in every case zero events are processed: no replies are sent and no deferred
tasks are enqueued. -/
theorem C2_forged_signature_rejected (env : Env) (c : Clients) (driveOk : Bool)
    (body : List Nat) (claimed : String) (es : List LineEvent)
    (h1 : env.channel_secret ≠ "") (h2 : env.channel_access_token ≠ "")
    (h3 : env.google_drive_folder_id ≠ "")
    (hf : claimed ≠ _compute_signature env.channel_secret body) :
    (isAsciiStr (pyStrip claimed) = true →
      callback env c driveOk body claimed true (some es) = .httpError 400) ∧
    (isAsciiStr (pyStrip claimed) = false →
      callback env c driveOk body claimed true (some es) = .serverError) ∧
    replies_of (callback env c driveOk body claimed true (some es)) = [] ∧
    tasks_of (callback env c driveOk body claimed true (some es)) = [] := by
  have hmain : callback env c driveOk body claimed true (some es) =
      (match verify_signature env.channel_secret body claimed with
        | CompareOutcome.typeError => HttpResult.serverError
        | CompareOutcome.ok _ => HttpResult.httpError 400) := by
    unfold callback
    rw [if_neg (by simp [h1, h2, h3])]
    have hcl := ensure_clients_ready env c driveOk h1 h2
    rw [if_neg (by simp [hcl.1, hcl.2])]
    cases hv : verify_signature env.channel_secret body claimed with
    | typeError => rfl
    | ok b =>
      cases b with
      | false => rfl
      | true =>
        unfold parse_step
        rw [if_neg (by simp), if_neg hf]
  refine ⟨?_, ?_, ?_, ?_⟩
  · intro ha
    rw [hmain, verify_signature_ok_of_ascii env.channel_secret body claimed ha]
  · intro ha
    rw [hmain, verify_signature_raises_of_nonascii env.channel_secret body claimed ha]
  · rw [hmain]
    cases verify_signature env.channel_secret body claimed <;> rfl
  · rw [hmain]
    cases verify_signature env.channel_secret body claimed <;> rfl

/-- Claim C2 witness: a concrete forged ASCII request against a concretely
configured server is rejected with HTTP 400. -/
theorem C2_forged_signature_rejected_witness :
    (("secret" : String) ≠ "" ∧ ("token" : String) ≠ "" ∧ ("folder" : String) ≠ "" ∧
      "forged" ≠ _compute_signature "secret" (utf8Encode "x") ∧
      isAsciiStr (pyStrip "forged") = true) ∧
    callback ⟨"secret", "token", "folder"⟩ ⟨false, false, false⟩ true (utf8Encode "x")
        "forged" true (some []) = .httpError 400 :=
  ⟨⟨by decide, by decide, by decide, by decide, by decide⟩,
   (C2_forged_signature_rejected ⟨"secret", "token", "folder"⟩ ⟨false, false, false⟩ true
      (utf8Encode "x") "forged" [] (by decide) (by decide) (by decide) (by decide)).1
     (by decide)⟩

/-- Claim C3: a body that carries the valid signature but whose envelope
cannot be decoded yields HTTP 200 with zero replies and zero deferred tasks;
the parse failure is caught at main.py lines 196-199 and converted into a
benign acknowledgment instead of propagating past the HTTP boundary. -/
theorem C3_parse_failure_acknowledged (env : Env) (c : Clients) (driveOk : Bool)
    (body : List Nat) (utf8Ok : Bool)
    (h1 : env.channel_secret ≠ "") (h2 : env.channel_access_token ≠ "")
    (h3 : env.google_drive_folder_id ≠ "") :
    callback env c driveOk body (_compute_signature env.channel_secret body) utf8Ok none =
      .response 200 [] [] := by
  unfold callback
  rw [if_neg (by simp [h1, h2, h3])]
  have hcl := ensure_clients_ready env c driveOk h1 h2
  rw [if_neg (by simp [hcl.1, hcl.2])]
  have hv : verify_signature env.channel_secret body
      (_compute_signature env.channel_secret body) = CompareOutcome.ok true :=
    (verify_signature_ok_iff env.channel_secret body _).mpr
      (pyStrip_compute_signature env.channel_secret body)
  rw [hv]
  unfold parse_step
  cases utf8Ok with
  | false => rw [if_pos rfl]
  | true => rw [if_neg (by simp), if_pos rfl]

/-- Claim C3 witness: a concrete correctly signed request whose envelope
decoding fails is acknowledged with HTTP 200 and an empty trace. -/
theorem C3_parse_failure_acknowledged_witness :
    (("secret" : String) ≠ "" ∧ ("token" : String) ≠ "" ∧ ("folder" : String) ≠ "") ∧
    callback ⟨"secret", "token", "folder"⟩ ⟨false, false, false⟩ true (utf8Encode "x")
        (_compute_signature "secret" (utf8Encode "x")) true none = .response 200 [] [] :=
  ⟨⟨by decide, by decide, by decide⟩,
   C3_parse_failure_acknowledged ⟨"secret", "token", "folder"⟩ ⟨false, false, false⟩ true
     (utf8Encode "x") true (by decide) (by decide) (by decide)⟩

/-- Claim C4 counterexample: for a MediaEvent declaring the filename "report",
which lacks an extension, with message id "m1" and content type
"application/pdf", the code derives "report.pdf" by appending the guessed
extension to the declared name, not "line_m1.pdf" as the claim would require
whenever the declared filename lacks an extension. -/
theorem C4_counterexample :
    derive_filename (some "report") "m1" "application/pdf" = "report.pdf" ∧
    derive_filename (some "report") "m1" "application/pdf" ≠
      "line_m1" ++ _safe_ext (some "application/pdf") := by
  constructor <;> decide

/-- Claim C4 (amended): the derived filename equals the declared filename when
one is present, non-empty and already contains an extension; when a declared
filename is present but lacks an extension, the guessed extension is appended
to the declared filename itself, not to line_<messageId>; only when no
filename is declared is line_<messageId> the base, with the guessed extension
appended when it contains no dot, and _safe_ext never yields ".jpe". -/
theorem C4_filename_derivation (f mid ct : String) :
    (f ≠ "" → pyContainsChar f '.' = true → derive_filename (some f) mid ct = f) ∧
    (f ≠ "" → pyContainsChar f '.' = false →
      derive_filename (some f) mid ct = f ++ _safe_ext (some ct)) ∧
    (pyContainsChar ("line_" ++ mid) '.' = false →
      derive_filename none mid ct = ("line_" ++ mid) ++ _safe_ext (some ct)) ∧
    (∀ c, _safe_ext c ≠ ".jpe") := by
  refine ⟨?_, ?_, ?_, ?_⟩
  · intro hne hdot
    simp [derive_filename, pyOrStr, hne, hdot]
  · intro hne hdot
    simp [derive_filename, pyOrStr, hne, hdot]
  · intro hdot
    simp [derive_filename, pyOrStr, hdot]
  · intro c
    simp only [_safe_ext]
    split
    · decide
    · next h => exact h

/-- Claim C4 witness: the amended rule evaluated at the declared extensionless
filename "report" with content type "application/pdf". -/
theorem C4_filename_derivation_witness :
    (("report" : String) ≠ "" ∧ pyContainsChar "report" '.' = false) ∧
    derive_filename (some "report") "m1" "application/pdf" =
      "report" ++ _safe_ext (some "application/pdf") :=
  ⟨⟨by decide, by decide⟩,
   (C4_filename_derivation "report" "m1" "application/pdf").2.1 (by decide) (by decide)⟩

/-- Claim C5: with no declared filename, message id "m1" and fetched content
type "image/jpeg", the guessed extension ".jpe" is normalized to ".jpg" and
the derived filename is "line_m1.jpg"; "line_m1.jpe" is never produced. -/
theorem C5_jpe_normalized :
    mimetypes_guess_extension "image/jpeg" = some ".jpe" ∧
    _safe_ext (some "image/jpeg") = ".jpg" ∧
    derive_filename none "m1" "image/jpeg" = "line_m1.jpg" ∧
    derive_filename none "m1" "image/jpeg" ≠ "line_m1.jpe" :=
  ⟨by decide, by decide, by decide, by decide⟩

theorem append_ne_empty_left (a b : String) (h : a ≠ "") : a ++ b ≠ "" := by
  intro he
  have h2 := congrArg String.data he
  rw [String.data_append] at h2
  have h3 : a.data ++ b.data = [] := h2
  exact h (String.ext (List.append_eq_nil.mp h3).1)

theorem truthy_synth_link (i : Option String) :
    synth_link i = none ∨ truthy (synth_link i) = true := by
  cases i with
  | none => exact Or.inl rfl
  | some s =>
    by_cases hs : s = ""
    · left
      simp [synth_link, hs]
    · right
      have h1 : (s != "") = true := bne_iff_ne.mpr hs
      simp only [synth_link, h1, if_true]
      exact bne_iff_ne.mpr (append_ne_empty_left _ _ (append_ne_empty_left _ _ (by decide)))

/-- Claim C6: the notification link chosen by the deferred pipeline is the
first non-empty candidate in the order view link, content link, then the view
URL synthesized from the file id when one is present (main.py lines 127-129);
with only a content link populated that link is chosen, and with neither link
but id "abc" the chosen link is the synthesized drive URL. -/
theorem C6_link_preference :
    (∀ meta : UploadMeta,
      choose_link meta =
        firstTruthy [meta.webViewLink, meta.webContentLink, synth_link meta.id]) ∧
    choose_link ⟨some "f1", none, some "https://example.com/content"⟩ =
      some "https://example.com/content" ∧
    choose_link ⟨some "abc", none, none⟩ =
      some "https://drive.google.com/file/d/abc/view" := by
  refine ⟨?_, by decide, by decide⟩
  intro meta
  by_cases hv : truthy meta.webViewLink = true
  · simp [choose_link, firstTruthy, pyOrO, hv]
  · simp only [Bool.not_eq_true] at hv
    by_cases hc : truthy meta.webContentLink = true
    · simp [choose_link, firstTruthy, pyOrO, hv, hc]
    · simp only [Bool.not_eq_true] at hc
      rcases truthy_synth_link meta.id with hs | hs
      · simp [choose_link, firstTruthy, pyOrO, hv, hc, hs, truthy]
      · simp [choose_link, firstTruthy, pyOrO, hv, hc, hs]

/-- Claim C8: a deferred pipeline run whose event source has none of user id,
group id or room id populated, or for which no link could be determined from
the upload outcome, sends no outbound push notification: the condition is
only logged at main.py lines 132-139 and the task terminates without further
action; the model is a total function, so the run also cannot raise. -/
theorem C8_no_push_without_target_or_link (env : Env) (c : Clients) (driveOk : Bool)
    (msg : Message) (src : Source) (fetch : FetchResult) (upload : UploadResult)
    (h : (truthy src.user_id = false ∧ truthy src.group_id = false ∧
        truthy src.room_id = false) ∨
      ∀ meta, upload = UploadResult.success meta → choose_link meta = none) :
    (process_upload env c driveOk msg src fetch upload).push = none := by
  simp only [process_upload]
  by_cases hco : ((ensure_clients env c driveOk).line_bot_api = false ∨
      (ensure_clients env c driveOk).drive = false)
  · rw [if_pos hco]
  · rw [if_neg hco]
    cases fetch with
    | failure => rfl
    | success ct =>
      cases upload with
      | failure => rfl
      | success meta =>
        rcases h with ⟨h1, h2, h3⟩ | hl
        · have ht : _push_target src = none := by simp [_push_target, h1, h2, h3]
          simp [ht, truthy]
        · have hl2 := hl meta rfl
          simp [hl2, truthy]

/-- Claim C8 witness: a concrete pipeline run with an empty source identity
attempts no push even though the upload produced a view link. -/
theorem C8_no_push_without_target_or_link_witness :
    (truthy (Source.mk none none none).user_id = false ∧
      truthy (Source.mk none none none).group_id = false ∧
      truthy (Source.mk none none none).room_id = false) ∧
    (process_upload ⟨"secret", "token", "folder"⟩ ⟨true, true, true⟩ true (Message.image "m1")
        ⟨none, none, none⟩ (FetchResult.success (some "image/jpeg"))
        (UploadResult.success ⟨some "abc", some "v", none⟩)).push = none :=
  ⟨⟨rfl, rfl, rfl⟩,
   C8_no_push_without_target_or_link ⟨"secret", "token", "folder"⟩ ⟨true, true, true⟩ true
     (Message.image "m1") ⟨none, none, none⟩ (FetchResult.success (some "image/jpeg"))
     (UploadResult.success ⟨some "abc", some "v", none⟩) (Or.inl ⟨rfl, rfl, rfl⟩)⟩

/-- Claim C9: POST /callback does not require the storage client: a failed
lazy drive initialisation is swallowed by _ensure_clients (main.py
lines 67-73) leaving the other clients ready and the drive handle unset, a
verified request carrying a media message still receives the processing reply
and HTTP 200 with the deferred task enqueued, and that task then detects the
missing drive client at main.py lines 98-100 and returns without uploading or
pushing. -/
theorem C9_drive_unready_graceful (env : Env) (c : Clients) (body : List Nat)
    (tok : String) (src : Source) (msg : Message)
    (h1 : env.channel_secret ≠ "") (h2 : env.channel_access_token ≠ "")
    (h3 : env.google_drive_folder_id ≠ "")
    (hm : is_media_message msg = true) (hd : c.drive = false) :
    ((ensure_clients env c false).parser = true ∧
      (ensure_clients env c false).line_bot_api = true ∧
      (ensure_clients env c false).drive = false) ∧
    callback env c false body (_compute_signature env.channel_secret body) true
        (some [LineEvent.message tok src msg]) =
      .response 200 [(tok, processing_reply_text)] [LineEvent.message tok src msg] ∧
    (∀ fetch upload, process_upload env c false msg src fetch upload = ⟨none, none⟩) := by
  have hcl := ensure_clients_ready env c false h1 h2
  have hdr : (ensure_clients env c false).drive = false := by
    simp [ensure_clients, hd]
  refine ⟨⟨hcl.1, hcl.2, hdr⟩, ?_, ?_⟩
  · unfold callback
    rw [if_neg (by simp [h1, h2, h3])]
    rw [if_neg (by simp [hcl.1, hcl.2])]
    have hv : verify_signature env.channel_secret body
        (_compute_signature env.channel_secret body) = CompareOutcome.ok true :=
      (verify_signature_ok_iff env.channel_secret body _).mpr
        (pyStrip_compute_signature env.channel_secret body)
    rw [hv]
    unfold parse_step
    rw [if_neg (by simp), if_pos rfl]
    simp [route_events, route_event, hm]
  · intro fetch upload
    simp only [process_upload]
    rw [if_pos (Or.inr hdr)]

/-- Claim C9 witness: a concrete verified media request against a server whose
drive initialisation failed, and the matching pipeline run. -/
theorem C9_drive_unready_graceful_witness :
    (("secret" : String) ≠ "" ∧ ("token" : String) ≠ "" ∧ ("folder" : String) ≠ "" ∧
      is_media_message (Message.image "m1") = true ∧
      (Clients.mk false false false).drive = false) ∧
    callback ⟨"secret", "token", "folder"⟩ ⟨false, false, false⟩ false (utf8Encode "x")
        (_compute_signature "secret" (utf8Encode "x")) true
        (some [LineEvent.message "rt" ⟨some "u1", none, none⟩ (Message.image "m1")]) =
      .response 200 [("rt", processing_reply_text)]
        [LineEvent.message "rt" ⟨some "u1", none, none⟩ (Message.image "m1")] ∧
    process_upload ⟨"secret", "token", "folder"⟩ ⟨false, false, false⟩ false (Message.image "m1")
        ⟨some "u1", none, none⟩ (FetchResult.success (some "image/jpeg"))
        (UploadResult.success ⟨some "abc", none, none⟩) = ⟨none, none⟩ :=
  ⟨⟨by decide, by decide, by decide, by decide, by decide⟩,
   (C9_drive_unready_graceful ⟨"secret", "token", "folder"⟩ ⟨false, false, false⟩
      (utf8Encode "x") "rt" ⟨some "u1", none, none⟩ (Message.image "m1")
      (by decide) (by decide) (by decide) (by decide) (by decide)).2.1,
   (C9_drive_unready_graceful ⟨"secret", "token", "folder"⟩ ⟨false, false, false⟩
      (utf8Encode "x") "rt" ⟨some "u1", none, none⟩ (Message.image "m1")
      (by decide) (by decide) (by decide) (by decide) (by decide)).2.2
     (FetchResult.success (some "image/jpeg")) (UploadResult.success ⟨some "abc", none, none⟩)⟩

/-- Claim C10: when the fetched content reports no content type (attribute
absent or empty), the pipeline substitutes "application/octet-stream"
(main.py line 104), and the substitute is used both for the extension guess
inside the derived filename and as the declared content type of the upload
call. -/
theorem C10_octet_stream_default (env : Env) (c : Clients) (driveOk : Bool)
    (msg : Message) (src : Source) (ct : Option String) (upload : UploadResult)
    (hapi : (ensure_clients env c driveOk).line_bot_api = true)
    (hdrive : (ensure_clients env c driveOk).drive = true)
    (hct : ct = none ∨ ct = some "") :
    (process_upload env c driveOk msg src (FetchResult.success ct) upload).upload_call =
      some ⟨env.google_drive_folder_id,
        derive_filename (message_file_name msg) (message_id msg) "application/octet-stream",
        "application/octet-stream"⟩ := by
  have hctv : pyOrStr ct "application/octet-stream" = "application/octet-stream" := by
    rcases hct with h | h <;> simp [h, pyOrStr]
  simp only [process_upload]
  rw [if_neg (by simp [hapi, hdrive])]
  cases upload with
  | failure => simp [hctv]
  | success meta => split <;> (try split) <;> simp [hctv]

/-- Claim C10 witness: a concrete pipeline run whose fetch reports no content
type uploads under the octet-stream default. -/
theorem C10_octet_stream_default_witness :
    ((ensure_clients ⟨"secret", "token", "folder"⟩ ⟨true, true, true⟩ true).line_bot_api = true ∧
      (ensure_clients ⟨"secret", "token", "folder"⟩ ⟨true, true, true⟩ true).drive = true) ∧
    (process_upload ⟨"secret", "token", "folder"⟩ ⟨true, true, true⟩ true (Message.image "m1")
        ⟨some "u1", none, none⟩ (FetchResult.success none)
        (UploadResult.success ⟨some "abc", none, none⟩)).upload_call =
      some ⟨"folder",
        derive_filename (message_file_name (Message.image "m1")) (message_id (Message.image "m1"))
          "application/octet-stream",
        "application/octet-stream"⟩ :=
  ⟨⟨by decide, by decide⟩,
   C10_octet_stream_default ⟨"secret", "token", "folder"⟩ ⟨true, true, true⟩ true
     (Message.image "m1") ⟨some "u1", none, none⟩ none
     (UploadResult.success ⟨some "abc", none, none⟩) (by decide) (by decide) (Or.inl rfl)⟩

